import Mathlib

/-!
Shallow embedding of the usage-metering, entitlement-enforcement and
billing-webhook logic of the review-response SaaS backend
(routes/reviews.js, routes/subscriptions.js and the duplicate generate
route). Timestamps are integers (milliseconds since epoch); money is
tracked in hundred-thousandths of a dollar so the per-token prices
0.00003 and 0.00006 are the integers 3 and 6.
-/

namespace ReviewSaas

/-- A user row: the subscription fields read and written by the
entitlement checks and the billing webhook handlers. -/
structure User where
  id : Nat
  subscriptionPlan : String
  subscriptionStatus : String
  subscriptionExpiresAt : Int
  stripeCustomerId : Option String
  stripeSubscriptionId : Option String
  monthlyLimit : Int
  isActive : Bool
  deriving Repr, DecidableEq

/-- Subscription validity as computed by authenticateAndCheckUsage in
routes/reviews.js: `user.subscriptionPlan === 'free' ? true :
user.subscriptionExpiresAt > new Date()`. -/
def isSubscriptionActive (u : User) (now : Int) : Bool :=
  if u.subscriptionPlan = "free" then true
  else decide (u.subscriptionExpiresAt > now)

/-- Outcome of the expiry gate in the duplicate generate route's
authenticateToken middleware. -/
inductive AuthCheck where
  | subscriptionExpired
  | authorized
  deriving Repr, DecidableEq

/-- The expiry gate of authenticateToken in the duplicate generate route:
`if (user.subscriptionExpiresAt < new Date())` reject with
`subscriptionExpired: true`, for every plan. -/
def authenticateTokenExpiryCheck (u : User) (now : Int) : AuthCheck :=
  if u.subscriptionExpiresAt < now then .subscriptionExpired else .authorized

/-- Outcome of the monthly quota gate. -/
inductive QuotaDecision where
  | allowed
  | quotaExceeded (current limit : Int)
  deriving Repr, DecidableEq

/-- The quota gate of authenticateAndCheckUsage in routes/reviews.js:
`if (user.monthlyLimit !== -1 && currentUsage >= user.monthlyLimit)`
reject with the current usage and the limit. -/
def checkUsageLimit (monthlyLimit currentUsage : Int) : QuotaDecision :=
  if monthlyLimit ≠ -1 ∧ currentUsage ≥ monthlyLimit then
    .quotaExceeded currentUsage monthlyLimit
  else .allowed

/-- The plan-limit table of the duplicate generate route's checkPlanLimits
middleware (`planLimits[user.subscriptionPlan] || 0`). -/
def planLimits (plan : String) : Int :=
  if plan = "free" then 10
  else if plan = "basic" then 500
  else if plan = "premium" then 2000
  else if plan = "enterprise" then -1
  else 0

/-- The rejection condition of checkPlanLimits in the duplicate generate
route: `userLimit !== -1 && usage.requestCount >= userLimit`. -/
def checkPlanLimitsRejects (userLimit : Int) (requestCount : Nat) : Bool :=
  decide (userLimit ≠ -1) && decide ((requestCount : Int) ≥ userLimit)

/-- The English professional canned reply, `responses.en.professional` in
generateFallbackResponse. -/
def enProfessionalFallback : String :=
  "Thank you for your feedback. We appreciate you taking the time to share your experience with us."

/-- The inner tone table of the fallback map: the `en` entry of
`responses` in generateFallbackResponse (routes/reviews.js). -/
def fallbackEn (tone : String) : Option String :=
  if tone = "professional" then some enProfessionalFallback
  else if tone = "friendly" then
    some "Thanks so much for your review! We really appreciate you sharing your thoughts with us."
  else if tone = "apologetic" then
    some "We sincerely apologize for any inconvenience. Your feedback is important to us and we will work to improve."
  else if tone = "grateful" then
    some "Thank you so much for your wonderful feedback! We truly appreciate your support."
  else none

/-- The two-level lookup `responses[language]?.[tone]`: the table has an
entry only for language `en`. -/
def fallbackResponses (language tone : String) : Option String :=
  if language = "en" then fallbackEn tone else none

/-- generateFallbackResponse in routes/reviews.js:
`responses[language]?.[tone] || responses.en.professional` (the table
entries are non-empty literals, so the JS or-fallback fires exactly when
the lookup is undefined). -/
def generateFallbackResponse (_reviewText tone language : String) : String :=
  (fallbackResponses language tone).getD enProfessionalFallback

/-- Result of the external completion-provider call: generated text with
prompt, completion and total token counts, or a failure with a message. -/
inductive ProviderResult where
  | ok (text : String) (promptTokens completionTokens totalTokens : Nat)
  | err (message : String)
  deriving Repr, DecidableEq

/-- An apiCall audit row as created by the generate handlers; cost is in
hundred-thousandths of a dollar. -/
structure ApiCallRecord where
  userId : Nat
  reviewText : String
  responseText : String
  language : String
  tone : String
  model : String
  tokensUsed : Nat
  costE5 : Nat
  success : Bool
  errorMessage : Option String
  deriving Repr, DecidableEq

/-- Store state touched by one generate call: the requestCount of the
(user, month, year) usage row, when that row exists, and the apiCall
audit table. -/
structure DbState where
  usage : Option Nat
  apiCalls : List ApiCallRecord
  deriving Repr, DecidableEq

/-- The HTTP outcome of the plain generate handler. -/
inductive GenResponse where
  | success (responseText : String) (current : Nat) (limit : Int)
  | quotaExceeded (current limit : Int)
  | subscriptionExpired
  | unauthorized
  deriving Repr, DecidableEq

/-- The usage upsert of routes/reviews.js: increment the requestCount of
the existing row, or create the row with requestCount 1. -/
def usageUpsert : Option Nat → Nat
  | some c => c + 1
  | none => 1

/-- What the provider phase of the plain handler leaves in
responseText, tokensUsed and cost. -/
structure GenOutcome where
  responseText : String
  tokensUsed : Nat
  costE5 : Nat
  deriving Repr, DecidableEq

/-- The try/catch around the provider call in routes/reviews.js POST
/generate: on success take the text, the total token count and
`inputTokens * 0.00003 + outputTokens * 0.00006`; on any provider error
substitute generateFallbackResponse and keep tokensUsed and cost at
their initial value 0. -/
def providerPhase (reviewText tone language : String) :
    ProviderResult → GenOutcome
  | .ok text pTok cTok total =>
      { responseText := text, tokensUsed := total, costE5 := 3 * pTok + 6 * cTok }
  | .err _ =>
      { responseText := generateFallbackResponse reviewText tone language,
        tokensUsed := 0, costE5 := 0 }

/-- The 500-character truncation `substring(0, 500)` applied before the
audit insert. -/
def take500 (s : String) : String := s.take 500

/-- The tx.apiCall.create data of routes/reviews.js: the row is written
with `success: true` and no errorMessage on every path through the plain
handler, provider failure included. -/
def plainApiCallRecord (uid : Nat) (reviewText tone language : String)
    (out : GenOutcome) : ApiCallRecord :=
  { userId := uid, reviewText := take500 reviewText,
    responseText := take500 out.responseText, language := language,
    tone := tone, model := "gpt-4", tokensUsed := out.tokensUsed,
    costE5 := out.costE5, success := true, errorMessage := none }

/-- The plain generate path of routes/reviews.js: the
authenticateAndCheckUsage gates (active user, subscription validity,
monthly quota) followed by the provider phase and the transaction that
upserts the usage row and inserts the audit row. -/
def plainGenerate (u : User) (reviewText tone language : String)
    (now : Int) (pr : ProviderResult) (db : DbState) :
    GenResponse × DbState :=
  if u.isActive = false then (.unauthorized, db)
  else if isSubscriptionActive u now = false then (.subscriptionExpired, db)
  else
    match checkUsageLimit u.monthlyLimit ((db.usage.getD 0 : Nat) : Int) with
    | .quotaExceeded c l => (.quotaExceeded c l, db)
    | .allowed =>
      let out := providerPhase reviewText tone language pr
      let newCount := usageUpsert db.usage
      (.success out.responseText newCount u.monthlyLimit,
       { usage := some newCount,
         apiCalls := db.apiCalls ++
           [plainApiCallRecord u.id reviewText tone language out] })

/-- The write phase of routes/reviews.js: usage upsert and audit insert
run inside one prisma transaction, so unless both writes succeed the
store is left untouched. The two booleans say whether each write would
succeed. -/
def generateTxWrites (usageOk auditOk : Bool) (db : DbState)
    (newCount : Nat) (rec : ApiCallRecord) : DbState :=
  if usageOk && auditOk then
    { usage := some newCount, apiCalls := db.apiCalls ++ [rec] }
  else db

/-- The write phase of the duplicate generate route: the usage update and
the apiCall insert are two separate awaited calls, so the usage update
persists even when the audit insert then fails. -/
def separateGenerateWrites (usageOk auditOk : Bool) (db : DbState)
    (newCount : Nat) (rec : ApiCallRecord) : DbState :=
  if usageOk then
    if auditOk then
      { usage := some newCount, apiCalls := db.apiCalls ++ [rec] }
    else { db with usage := some newCount }
  else db

/-- The user table seen by the billing webhook handlers. -/
abbrev SubsDb := List User

/-- The prisma findFirst predicate `where: { stripeCustomerId: customer.id }`. -/
def matchesCustomer (cid : String) (u : User) : Bool :=
  u.stripeCustomerId == some cid

/-- The field update of handleCheckoutCompleted, applied to the user row
whose id matches the checkout session metadata. -/
def checkoutUpdate (uid : Nat) (planId stripeSubId : String)
    (periodEnd : Int) (u : User) : User :=
  if u.id = uid then
    { u with subscriptionPlan := planId, subscriptionStatus := "active",
             subscriptionExpiresAt := periodEnd,
             stripeSubscriptionId := some stripeSubId }
  else u

/-- handleCheckoutCompleted in routes/subscriptions.js: prisma
user.update keyed by the session metadata userId; the update throws
(none) when no such row exists, and the webhook route then answers 500
with nothing written. -/
def applyCheckoutCompleted (uid : Nat) (planId stripeSubId : String)
    (periodEnd : Int) (db : SubsDb) : Option SubsDb :=
  if db.any (fun u => u.id == uid) then
    some (db.map (checkoutUpdate uid planId stripeSubId periodEnd))
  else none

/-- The field update of handlePaymentSucceeded. -/
def setActiveWithExpiry (periodEnd : Int) (uid : Nat) (v : User) : User :=
  if v.id = uid then
    { v with subscriptionStatus := "active",
             subscriptionExpiresAt := periodEnd }
  else v

/-- handlePaymentSucceeded: only acts when the invoice carries a
subscription; resolves the user by stripeCustomerId and fails soft when
no local user matches. -/
def applyPaymentSucceeded (invoiceSub : Option String) (customerId : String)
    (periodEnd : Int) (db : SubsDb) : SubsDb :=
  match invoiceSub with
  | none => db
  | some _ =>
    match db.find? (matchesCustomer customerId) with
    | none => db
    | some u => db.map (setActiveWithExpiry periodEnd u.id)

/-- The field update of handlePaymentFailed: only subscriptionStatus is
written. -/
def setPastDue (uid : Nat) (v : User) : User :=
  if v.id = uid then { v with subscriptionStatus := "past_due" } else v

/-- handlePaymentFailed in routes/subscriptions.js: only acts when the
invoice carries a subscription; resolves the user by stripeCustomerId,
fails soft when absent, and updates only the status field. -/
def applyPaymentFailed (invoiceSub : Option String) (customerId : String)
    (db : SubsDb) : SubsDb :=
  match invoiceSub with
  | none => db
  | some _ =>
    match db.find? (matchesCustomer customerId) with
    | none => db
    | some u => db.map (setPastDue u.id)

/-- The field update of handleSubscriptionUpdated: mirror the provider
status, overridden to cancelled when cancel_at_period_end is set, and
refresh the expiry. -/
def mirrorStatus (status : String) (cancelAtPeriodEnd : Bool)
    (periodEnd : Int) (uid : Nat) (v : User) : User :=
  if v.id = uid then
    { v with
        subscriptionStatus := if cancelAtPeriodEnd then "cancelled" else status,
        subscriptionExpiresAt := periodEnd }
  else v

/-- handleSubscriptionUpdated in routes/subscriptions.js. -/
def applySubscriptionUpdated (customerId status : String)
    (cancelAtPeriodEnd : Bool) (periodEnd : Int) (db : SubsDb) : SubsDb :=
  match db.find? (matchesCustomer customerId) with
  | none => db
  | some u => db.map (mirrorStatus status cancelAtPeriodEnd periodEnd u.id)

/-- The field update of handleSubscriptionDeleted: plan free, status
cancelled, expiry reset to now, provider subscription id cleared. -/
def revertToFree (now : Int) (uid : Nat) (v : User) : User :=
  if v.id = uid then
    { v with subscriptionPlan := "free", subscriptionStatus := "cancelled",
             subscriptionExpiresAt := now, stripeSubscriptionId := none }
  else v

/-- handleSubscriptionDeleted in routes/subscriptions.js: resolve the
user by stripeCustomerId, fail soft when absent. -/
def applySubscriptionDeleted (customerId : String) (now : Int)
    (db : SubsDb) : SubsDb :=
  match db.find? (matchesCustomer customerId) with
  | none => db
  | some u => db.map (revertToFree now u.id)

/-- An inbound provider event, carrying the data the handlers read from
the event object and from the follow-up provider retrieve calls. -/
inductive StripeEvent where
  | checkoutCompleted (userId : Nat) (planId stripeSubId : String) (periodEnd : Int)
  | paymentSucceeded (invoiceSub : Option String) (customerId : String) (periodEnd : Int)
  | paymentFailed (invoiceSub : Option String) (customerId : String)
  | subscriptionUpdated (customerId status : String) (cancelAtPeriodEnd : Bool) (periodEnd : Int)
  | subscriptionDeleted (customerId : String)
  | otherEvent (eventType : String)
  deriving Repr, DecidableEq

/-- The webhook route answer: 400 on bad signature, `{received: true}`
on a handled or unknown event, 500 when a handler throws. -/
inductive WebhookResponse where
  | badRequest
  | received
  | serverError
  deriving Repr, DecidableEq

/-- The event switch of POST /webhook in routes/subscriptions.js. -/
def dispatchEvent (e : StripeEvent) (now : Int) (db : SubsDb) :
    WebhookResponse × SubsDb :=
  match e with
  | .checkoutCompleted uid plan sub pe =>
    match applyCheckoutCompleted uid plan sub pe db with
    | some db2 => (.received, db2)
    | none => (.serverError, db)
  | .paymentSucceeded inv cid pe => (.received, applyPaymentSucceeded inv cid pe db)
  | .paymentFailed inv cid => (.received, applyPaymentFailed inv cid db)
  | .subscriptionUpdated cid st cape pe =>
      (.received, applySubscriptionUpdated cid st cape pe db)
  | .subscriptionDeleted cid => (.received, applySubscriptionDeleted cid now db)
  | .otherEvent _ => (.received, db)

/-- POST /webhook in routes/subscriptions.js: constructEvent verifies the
signature first and the route returns 400 before any lookup or write when
verification fails; otherwise the event switch runs. -/
def processWebhook (signatureValid : Bool) (e : StripeEvent) (now : Int)
    (db : SubsDb) : WebhookResponse × SubsDb :=
  if signatureValid then dispatchEvent e now db else (.badRequest, db)

/-! Concrete fixtures used by witnesses and counterexamples. -/

/-- A free-tier user whose subscription expiry timestamp lies in the
past (expiry 0, clock values greater than 0 are used with it). -/
def freeUser : User :=
  { id := 1, subscriptionPlan := "free", subscriptionStatus := "active",
    subscriptionExpiresAt := 0, stripeCustomerId := none,
    stripeSubscriptionId := none, monthlyLimit := 10, isActive := true }

/-- An enterprise user with the unlimited quota sentinel -1. -/
def entUser : User :=
  { id := 2, subscriptionPlan := "enterprise", subscriptionStatus := "active",
    subscriptionExpiresAt := 9999999, stripeCustomerId := none,
    stripeSubscriptionId := none, monthlyLimit := -1, isActive := true }

/-- A user with no billing customer id, placed before the billed user in
the fixture table. -/
def userA : User :=
  { id := 7, subscriptionPlan := "basic", subscriptionStatus := "active",
    subscriptionExpiresAt := 5000, stripeCustomerId := none,
    stripeSubscriptionId := some "sub_a", monthlyLimit := 100,
    isActive := true }

/-- A billed user resolved by customer id cus_1 in the fixture table. -/
def userB : User :=
  { id := 8, subscriptionPlan := "premium", subscriptionStatus := "active",
    subscriptionExpiresAt := 7000, stripeCustomerId := some "cus_1",
    stripeSubscriptionId := some "sub_b", monthlyLimit := 500,
    isActive := true }

/-- A sample audit row for the write-phase counterexample. -/
def sampleRecord : ApiCallRecord :=
  { userId := 1, reviewText := "Great coffee", responseText := "Thanks!",
    language := "en", tone := "friendly", model := "gpt-4",
    tokensUsed := 30, costE5 := 90, success := true, errorMessage := none }

/-! Theorems settling the claims. -/

/-- C2 counterexample: the claim says a free-tier user is never rejected
with SubscriptionExpired before generation, but the duplicate generate
route runs authenticateTokenExpiryCheck, which rejects the free-tier
user freeUser (plan free, expiry 0) at clock 1000 with
subscriptionExpired. -/
theorem c2_counterexample :
    freeUser.subscriptionPlan = "free" ∧
    authenticateTokenExpiryCheck freeUser 1000 = AuthCheck.subscriptionExpired := by
  constructor
  · rfl
  · rfl

/-- C2 (amended): on the freemium generation path of routes/reviews.js,
the subscription-validity check isSubscriptionActive evaluates to true
for every free-tier user regardless of the expiry timestamp; the
duplicate generate route instead checks expiry for every plan. -/
theorem c2_free_tier_always_valid (u : User) (now : Int)
    (h : u.subscriptionPlan = "free") :
    isSubscriptionActive u now = true := by
  simp [isSubscriptionActive, h]

/-- C2 witness: the free-tier user freeUser is subscription-valid at
clock 1000 even though its expiry 0 lies in the past. -/
theorem c2_witness :
    freeUser.subscriptionPlan = "free" ∧
    isSubscriptionActive freeUser 1000 = true :=
  ⟨rfl, c2_free_tier_always_valid freeUser 1000 rfl⟩

/-- C4 counterexample: on the duplicate generate route the usage update
and the audit insert are separate writes, so the schedule where the
usage write succeeds and the audit write fails leaves the counter
incremented from 5 to 6 with no audit row, refuting the claimed
atomicity for every generation path. -/
theorem c4_counterexample :
    (separateGenerateWrites true false
        { usage := some 5, apiCalls := [] } 6 sampleRecord).usage = some 6 ∧
    (separateGenerateWrites true false
        { usage := some 5, apiCalls := [] } 6 sampleRecord).apiCalls = [] := by
  constructor
  · rfl
  · rfl

/-- C4 (amended): on the routes/reviews.js generate path the usage
upsert and the audit insert run inside one transaction, so for every
failure schedule the store is either untouched or carries both effects:
the incremented counter together with the appended audit row. -/
theorem c4_tx_atomic (usageOk auditOk : Bool) (db : DbState)
    (newCount : Nat) (rec : ApiCallRecord) :
    generateTxWrites usageOk auditOk db newCount rec = db ∨
    generateTxWrites usageOk auditOk db newCount rec =
      { usage := some newCount, apiCalls := db.apiCalls ++ [rec] } := by
  unfold generateTxWrites
  rcases h : usageOk && auditOk with _ | _
  · left
    simp [h]
  · right
    simp [h]

/-- C5: when signature verification fails, the webhook route answers 400
and the subscription state after the request equals the state before it,
for every event and every store. -/
theorem c5_invalid_signature_no_mutation (e : StripeEvent) (now : Int)
    (db : SubsDb) :
    processWebhook false e now db = (WebhookResponse.badRequest, db) := rfl

/-- C9: with the unlimited sentinel -1 as the limit, the plain generate
path never answers quotaExceeded whatever the stored count, and both
quota gates (the routes/reviews.js gate and the duplicate-route
checkPlanLimits gate) always let the request through. -/
theorem c9_unlimited_never_rejects (u : User)
    (reviewText tone language : String) (now : Int) (pr : ProviderResult)
    (db : DbState) (cu : Int) (rc : Nat) (h : u.monthlyLimit = -1) :
    (∀ c l, (plainGenerate u reviewText tone language now pr db).1 ≠
        GenResponse.quotaExceeded c l) ∧
    checkUsageLimit (-1) cu = QuotaDecision.allowed ∧
    checkPlanLimitsRejects (-1) rc = false := by
  refine ⟨?_, ?_, ?_⟩
  · intro c l
    simp only [plainGenerate, h, checkUsageLimit]
    split
    · simp
    · split
      · simp
      · split
        · simp_all
        · simp
  · simp [checkUsageLimit]
  · simp [checkPlanLimitsRejects]

/-- C9 witness: the enterprise user entUser with limit -1 and a stored
count of 999999 is not rejected, and both gates admit count 999999. -/
theorem c9_witness :
    ((plainGenerate entUser "Nice place" "professional" "en" 0
        (ProviderResult.ok "Thank you" 10 20 30)
        { usage := some 999999, apiCalls := [] }).1 ≠
      GenResponse.quotaExceeded 999999 (-1)) ∧
    checkUsageLimit (-1) 999999 = QuotaDecision.allowed ∧
    checkPlanLimitsRejects (-1) 999999 = false := by
  have h := c9_unlimited_never_rejects entUser "Nice place" "professional"
    "en" 0 (ProviderResult.ok "Thank you" 10 20 30)
    { usage := some 999999, apiCalls := [] } 999999 999999 rfl
  exact ⟨h.1 999999 (-1), h.2.1, h.2.2⟩

/-- C10: generateFallbackResponse returns a non-empty string on every
input, and for every language other than en it returns the English
professional fallback, the tone notwithstanding, because the fallback
table only has an en entry. -/
theorem c10_fallback_total (reviewText tone language : String) :
    generateFallbackResponse reviewText tone language ≠ "" ∧
    (language ≠ "en" →
      generateFallbackResponse reviewText tone language = enProfessionalFallback) := by
  constructor
  · unfold generateFallbackResponse fallbackResponses fallbackEn enProfessionalFallback
    split
    · split
      · simp
      · split
        · simp
        · split
          · simp
          · split
            · simp
            · simp
    · simp
  · intro h
    simp [generateFallbackResponse, fallbackResponses, h]

/-- C10 witness: for language ro (not en) and tone grateful the fallback
is the English professional string, and it is non-empty. -/
theorem c10_witness :
    generateFallbackResponse "Loved the visit" "grateful" "ro" ≠ "" ∧
    generateFallbackResponse "Loved the visit" "grateful" "ro" =
      enProfessionalFallback :=
  ⟨(c10_fallback_total "Loved the visit" "grateful" "ro").1,
   (c10_fallback_total "Loved the visit" "grateful" "ro").2 (by decide)⟩

/-- C1 counterexample: on a provider failure the plain generate path of
routes/reviews.js creates its audit row with success true and no error
message, refuting the claim that the record carries success false and
the provider error message. -/
theorem c1_counterexample :
    ((plainGenerate freeUser "The service was slow today" "professional" "en"
        500 (ProviderResult.err "Request timed out")
        { usage := some 0, apiCalls := [] }).2.apiCalls.map
        ApiCallRecord.success = [true]) ∧
    ((plainGenerate freeUser "The service was slow today" "professional" "en"
        500 (ProviderResult.err "Request timed out")
        { usage := some 0, apiCalls := [] }).2.apiCalls.map
        ApiCallRecord.errorMessage = [none]) := by
  constructor
  · rfl
  · rfl

/-- C1 (amended): when the provider call fails on the plain generation
path, the handler still answers successfully with the
language-and-tone-keyed fallback string and the audit row records zero
cost and zero tokens, but the row is written with success true and no
error message. -/
theorem c1_fallback_on_provider_error (u : User)
    (reviewText tone language msg : String) (now : Int) (db : DbState)
    (hact : u.isActive = true)
    (hsub : isSubscriptionActive u now = true)
    (hq : checkUsageLimit u.monthlyLimit ((db.usage.getD 0 : Nat) : Int) =
      QuotaDecision.allowed) :
    plainGenerate u reviewText tone language now (ProviderResult.err msg) db =
      (GenResponse.success (generateFallbackResponse reviewText tone language)
        (usageUpsert db.usage) u.monthlyLimit,
       { usage := some (usageUpsert db.usage),
         apiCalls := db.apiCalls ++
           [{ userId := u.id, reviewText := take500 reviewText,
              responseText :=
                take500 (generateFallbackResponse reviewText tone language),
              language := language, tone := tone, model := "gpt-4",
              tokensUsed := 0, costE5 := 0, success := true,
              errorMessage := none }] }) := by
  simp [plainGenerate, hact, hsub, hq, providerPhase, plainApiCallRecord]

/-- C1 witness: the free user freeUser, under quota at count 3, receives
the friendly English fallback after a provider timeout, and the audit
row carries zero tokens, zero cost, success true and no error message. -/
theorem c1_witness :
    plainGenerate freeUser "Food was cold" "friendly" "en" 500
        (ProviderResult.err "timeout") { usage := some 3, apiCalls := [] } =
      (GenResponse.success (generateFallbackResponse "Food was cold" "friendly" "en")
        (usageUpsert (some 3)) freeUser.monthlyLimit,
       { usage := some (usageUpsert (some 3)),
         apiCalls := [] ++
           [{ userId := freeUser.id, reviewText := take500 "Food was cold",
              responseText :=
                take500 (generateFallbackResponse "Food was cold" "friendly" "en"),
              language := "en", tone := "friendly", model := "gpt-4",
              tokensUsed := 0, costE5 := 0, success := true,
              errorMessage := none }] }) :=
  c1_fallback_on_provider_error freeUser "Food was cold" "friendly" "en"
    "timeout" 500 { usage := some 3, apiCalls := [] }
    (by decide) (by decide) (by decide)

/-- C3: for a user with monthly limit 10 who is active and
subscription-valid, a stored count of 10 is rejected with quotaExceeded
reporting current 10 and limit 10 and the store is unchanged, while a
stored count of 9 passes the gate and the request leaves the count at
10. -/
theorem c3_quota_boundary (u : User) (reviewText tone language : String)
    (now : Int) (pr : ProviderResult)
    (hact : u.isActive = true) (hsub : isSubscriptionActive u now = true)
    (hlim : u.monthlyLimit = 10) :
    (∀ calls, plainGenerate u reviewText tone language now pr
        { usage := some 10, apiCalls := calls } =
      (GenResponse.quotaExceeded 10 10,
       { usage := some 10, apiCalls := calls })) ∧
    (∀ calls,
      (plainGenerate u reviewText tone language now pr
          { usage := some 9, apiCalls := calls }).2.usage = some 10 ∧
      (plainGenerate u reviewText tone language now pr
          { usage := some 9, apiCalls := calls }).1 =
        GenResponse.success
          (providerPhase reviewText tone language pr).responseText 10
          u.monthlyLimit) := by
  constructor
  · intro calls
    simp [plainGenerate, hact, hsub, hlim, checkUsageLimit]
  · intro calls
    simp [plainGenerate, hact, hsub, hlim, checkUsageLimit, usageUpsert]

/-- C3 witness: freeUser has limit 10; at stored count 10 the call is
rejected with quotaExceeded 10 10 and nothing is written, and at stored
count 9 the resulting count is 10. -/
theorem c3_witness :
    (plainGenerate freeUser "Great coffee" "professional" "en" 500
        (ProviderResult.ok "Thank you" 10 20 30)
        { usage := some 10, apiCalls := [] } =
      (GenResponse.quotaExceeded 10 10,
       { usage := some 10, apiCalls := [] })) ∧
    (plainGenerate freeUser "Great coffee" "professional" "en" 500
        (ProviderResult.ok "Thank you" 10 20 30)
        { usage := some 9, apiCalls := [] }).2.usage = some 10 := by
  have h := c3_quota_boundary freeUser "Great coffee" "professional" "en" 500
    (ProviderResult.ok "Thank you" 10 20 30) (by decide) (by decide) (by decide)
  exact ⟨h.1 [], (h.2 []).1⟩

/-- The checkoutCompleted field update leaves the row id unchanged. -/
theorem checkoutUpdate_id (uid : Nat) (p s : String) (pe : Int) (u : User) :
    (checkoutUpdate uid p s pe u).id = u.id := by
  unfold checkoutUpdate
  split <;> rfl

/-- Applying the checkoutCompleted field update twice equals applying it
once, row by row. -/
theorem checkoutUpdate_idem (uid : Nat) (p s : String) (pe : Int) (u : User) :
    checkoutUpdate uid p s pe (checkoutUpdate uid p s pe u) =
      checkoutUpdate uid p s pe u := by
  unfold checkoutUpdate
  by_cases h : u.id = uid
  · simp [h]
  · simp [h]

/-- Mapping the checkoutCompleted update over the table does not change
which ids are present. -/
theorem any_id_map_checkoutUpdate (uid : Nat) (p s : String) (pe : Int)
    (db : SubsDb) (uid2 : Nat) :
    (db.map (checkoutUpdate uid p s pe)).any (fun u => u.id == uid2) =
      db.any (fun u => u.id == uid2) := by
  induction db with
  | nil => rfl
  | cons a t ih => simp [List.any_cons, checkoutUpdate_id, ih]

/-- Mapping the checkoutCompleted update twice over the table equals
mapping it once. -/
theorem map_checkoutUpdate_idem (uid : Nat) (p s : String) (pe : Int)
    (db : SubsDb) :
    (db.map (checkoutUpdate uid p s pe)).map (checkoutUpdate uid p s pe) =
      db.map (checkoutUpdate uid p s pe) := by
  induction db with
  | nil => rfl
  | cons a t ih => simp [checkoutUpdate_idem, ih]

/-- C6: processing the same checkout-completed webhook event twice
leaves the subscription table in the same state as processing it once,
whether or not the referenced user exists. -/
theorem c6_checkout_idempotent (uid : Nat) (plan sub : String)
    (pe now : Int) (db : SubsDb) :
    (processWebhook true (StripeEvent.checkoutCompleted uid plan sub pe) now
      (processWebhook true (StripeEvent.checkoutCompleted uid plan sub pe)
        now db).2).2 =
    (processWebhook true (StripeEvent.checkoutCompleted uid plan sub pe)
      now db).2 := by
  by_cases h : db.any (fun u => u.id == uid) = true
  · have h1 : applyCheckoutCompleted uid plan sub pe db =
        some (db.map (checkoutUpdate uid plan sub pe)) := by
      unfold applyCheckoutCompleted
      rw [if_pos h]
    have hany : (db.map (checkoutUpdate uid plan sub pe)).any
        (fun u => u.id == uid) = true := by
      rw [any_id_map_checkoutUpdate]
      exact h
    have h2 : applyCheckoutCompleted uid plan sub pe
        (db.map (checkoutUpdate uid plan sub pe)) =
        some (db.map (checkoutUpdate uid plan sub pe)) := by
      unfold applyCheckoutCompleted
      rw [if_pos hany, map_checkoutUpdate_idem]
    simp [processWebhook, dispatchEvent, h1, h2]
  · have h1 : applyCheckoutCompleted uid plan sub pe db = none := by
      unfold applyCheckoutCompleted
      rw [if_neg h]
    simp [processWebhook, dispatchEvent, h1]

/-- C7: an invoice-payment-failed event that resolves to local user u
rewrites the table with setPastDue, which sets the status of the rows
with id u.id to past_due and changes no other field of any row. -/
theorem c7_payment_failed_frame (db : SubsDb) (s cid : String) (u : User)
    (h : db.find? (matchesCustomer cid) = some u) :
    applyPaymentFailed (some s) cid db = db.map (setPastDue u.id) ∧
    ∀ v : User,
      (setPastDue u.id v).id = v.id ∧
      (setPastDue u.id v).subscriptionPlan = v.subscriptionPlan ∧
      (setPastDue u.id v).subscriptionExpiresAt = v.subscriptionExpiresAt ∧
      (setPastDue u.id v).stripeSubscriptionId = v.stripeSubscriptionId ∧
      (setPastDue u.id v).stripeCustomerId = v.stripeCustomerId ∧
      (setPastDue u.id v).monthlyLimit = v.monthlyLimit ∧
      (setPastDue u.id v).isActive = v.isActive ∧
      (setPastDue u.id v).subscriptionStatus =
        (if v.id = u.id then "past_due" else v.subscriptionStatus) := by
  refine ⟨by simp [applyPaymentFailed, h], ?_⟩
  intro v
  unfold setPastDue
  by_cases hv : v.id = u.id
  · simp [hv]
  · simp [hv]

/-- C7 witness: in the table [userA, userB] the customer id cus_1
resolves to userB; after the event userB has status past_due while the
status and expiry of userA are unchanged. -/
theorem c7_witness :
    applyPaymentFailed (some "sub_b") "cus_1" [userA, userB] =
      [userA, userB].map (setPastDue userB.id) ∧
    (setPastDue userB.id userB).subscriptionStatus = "past_due" ∧
    (setPastDue userB.id userA).subscriptionStatus =
      userA.subscriptionStatus ∧
    (setPastDue userB.id userA).subscriptionExpiresAt =
      userA.subscriptionExpiresAt := by
  have h := c7_payment_failed_frame [userA, userB] "sub_b" "cus_1" userB
    (by decide)
  refine ⟨h.1, ?_, ?_, (h.2 userA).2.2.1⟩
  · have hc := (h.2 userB).2.2.2.2.2.2.2
    simpa using hc
  · have hc := (h.2 userA).2.2.2.2.2.2.2
    simpa [userA, userB] using hc

/-- C8: a subscription-deleted event that resolves to local user u
rewrites the table with revertToFree, which on the rows with id u.id
sets plan free, status cancelled, expiry to the current time and clears
the provider subscription id, and leaves every other row unchanged. -/
theorem c8_subscription_deleted (db : SubsDb) (cid : String) (now : Int)
    (u : User) (h : db.find? (matchesCustomer cid) = some u) :
    applySubscriptionDeleted cid now db = db.map (revertToFree now u.id) ∧
    ∀ v : User,
      (v.id = u.id →
        (revertToFree now u.id v).subscriptionPlan = "free" ∧
        (revertToFree now u.id v).subscriptionStatus = "cancelled" ∧
        (revertToFree now u.id v).subscriptionExpiresAt = now ∧
        (revertToFree now u.id v).stripeSubscriptionId = none) ∧
      (v.id ≠ u.id → revertToFree now u.id v = v) := by
  refine ⟨by simp [applySubscriptionDeleted, h], ?_⟩
  intro v
  constructor
  · intro hv
    simp [revertToFree, hv]
  · intro hv
    simp [revertToFree, hv]

/-- C8 witness: in the table [userA, userB] the customer id cus_1
resolves to userB; after the event at clock 4242 userB is on plan free,
status cancelled, expiry 4242 and its provider subscription id is
cleared. -/
theorem c8_witness :
    applySubscriptionDeleted "cus_1" 4242 [userA, userB] =
      [userA, userB].map (revertToFree 4242 userB.id) ∧
    (revertToFree 4242 userB.id userB).subscriptionPlan = "free" ∧
    (revertToFree 4242 userB.id userB).subscriptionStatus = "cancelled" ∧
    (revertToFree 4242 userB.id userB).subscriptionExpiresAt = 4242 ∧
    (revertToFree 4242 userB.id userB).stripeSubscriptionId = none := by
  have h := c8_subscription_deleted [userA, userB] "cus_1" 4242 userB
    (by decide)
  have hb := (h.2 userB).1 rfl
  exact ⟨h.1, hb.1, hb.2.1, hb.2.2.1, hb.2.2.2⟩

end ReviewSaas
